import Mathlib

/-!
Verification of the query/aggregation core of the customer segmentation
dashboard (src/streamlit_app.py), shallow-embedded in Lean.

Tables are lists of records; pandas float arithmetic is modelled over ℚ,
with a marker for IEEE non-finite results (NaN or infinities), which the
relevant divisions produce exactly (0/0, x/0, mean of an empty column).
-/

namespace Dash

/-- Calendar timestamp: year, month, day, plus a time-of-day component
(seconds within the day), mirroring a parsed pandas datetime. -/
structure Timestamp where
  year : Int
  month : Nat
  day : Nat
  tod : Nat
deriving DecidableEq

/-- Calendar dates, as (year, month, day). -/
abbrev CalDate := Int × Nat × Nat

/-- Calendar date of a timestamp, ignoring time-of-day; mirrors
the pandas accessor dt.date used at lines 63-64 of the source. -/
def Timestamp.date (t : Timestamp) : CalDate := (t.year, t.month, t.day)

/-- Calendar month of a timestamp; mirrors dt.to_period at line 260
of the source (the month the order date falls in). -/
def Timestamp.yearMonth (t : Timestamp) : Int × Nat := (t.year, t.month)

/-- Lexicographic order on calendar dates: this is how Python date
objects compare. -/
def dateLe (a b : CalDate) : Bool :=
  decide (a.1 < b.1) ||
    (decide (a.1 = b.1) &&
      (decide (a.2.1 < b.2.1) ||
        (decide (a.2.1 = b.2.1) && decide (a.2.2 ≤ b.2.2))))

/-- Transaction record (one row of the transaction table loaded at
line 20 of the source, order_date parsed at line 22). -/
structure Transaction where
  customer_id : Nat
  order_date : Timestamp
  purchase_amount : ℚ
  currency : String
deriving DecidableEq

/-- Customer feature record (one row of the clustered feature table
loaded at line 21 of the source). -/
structure Customer where
  customer_id : Nat
  cluster : Nat
  monetary : ℚ
  frequency : ℚ
  recency : ℚ
  purchase_variability : ℚ
  tenure_days : ℚ
  purchases_per_day : ℚ
  spend_per_day : ℚ
  recency_ratio : ℚ
  customer_value_score : ℚ
  first_purchase : Timestamp
  last_purchase : Timestamp
deriving DecidableEq

/-- Model of a pandas float value: either a finite rational, or nan,
which stands for any IEEE non-finite result (NaN or an infinity).
All divisions the dashboard performs are exact on the finite side,
so ℚ is a faithful carrier for the finite values the claims inspect. -/
inductive PFloat where
  | val (q : ℚ)
  | nan
deriving DecidableEq

/-- Float subtraction: non-finite operands propagate. -/
def PFloat.sub : PFloat → PFloat → PFloat
  | PFloat.val a, PFloat.val b => PFloat.val (a - b)
  | _, _ => PFloat.nan

/-- Float multiplication: non-finite operands propagate. -/
def PFloat.mul : PFloat → PFloat → PFloat
  | PFloat.val a, PFloat.val b => PFloat.val (a * b)
  | _, _ => PFloat.nan

/-- Float division: a zero divisor yields an IEEE non-finite result
(NaN for 0/0, an infinity otherwise), both collapsed to nan here;
non-finite operands propagate. -/
def PFloat.div : PFloat → PFloat → PFloat
  | PFloat.val a, PFloat.val b => if b = 0 then PFloat.nan else PFloat.val (a / b)
  | _, _ => PFloat.nan

/-- Arithmetic mean of a rational column, as ℚ (meaningful for
nonempty columns; callers on possibly-empty columns go through pmean). -/
def qmean (l : List ℚ) : ℚ := l.sum / l.length

/-- Pandas Series.mean: the mean of an empty column is NaN. -/
def pmean (l : List ℚ) : PFloat :=
  if l.isEmpty then PFloat.nan else PFloat.val (qmean l)

/-- Membership of a PFloat in the closed unit interval; nan (a
non-finite float) does not lie in any interval. -/
def PFloat.inUnit : PFloat → Prop
  | PFloat.val q => 0 ≤ q ∧ q ≤ 1
  | PFloat.nan => False

/-- Filter Engine, transaction side (source lines 61-64 and 71): with a
two-ended date range the rows whose calendar date lies inclusively
between the ends are kept; otherwise the full table is kept. -/
def filteredData (data : List Transaction)
    (dateRange : Option (CalDate × CalDate)) : List Transaction :=
  match dateRange with
  | some se =>
      data.filter (fun t =>
        dateLe se.1 t.order_date.date && dateLe t.order_date.date se.2)
  | none => data

/-- Filter Engine, customer side (source lines 66-69 and 72-74): with a
date range active, customers must both appear among the filtered
transactions' customer ids and have their cluster selected; with no
date range only the cluster test applies. -/
def filteredCustomers (data : List Transaction) (customers : List Customer)
    (dateRange : Option (CalDate × CalDate)) (clusterFilter : List Nat) :
    List Customer :=
  match dateRange with
  | some se =>
      customers.filter (fun c =>
        decide (c.customer_id ∈
          (filteredData data (some se)).map Transaction.customer_id) &&
        decide (c.cluster ∈ clusterFilter))
  | none =>
      customers.filter (fun c => decide (c.cluster ∈ clusterFilter))

/-- The filter pass as one call, pairing the two views (section 4.1 of
the spec; source lines 61-74). -/
def applyFilters (data : List Transaction) (customers : List Customer)
    (dateRange : Option (CalDate × CalDate)) (clusterFilter : List Nat) :
    List Transaction × List Customer :=
  (filteredData data dateRange,
   filteredCustomers data customers dateRange clusterFilter)

/-- Distinct customer count (pandas nunique, source lines 83-84). -/
def totalCustomersN (fc : List Customer) : Nat :=
  ((fc.map Customer.customer_id).dedup).length

/-- The figure shown next to the Total Customers KPI (source line 84):
filtered distinct count divided by baseline distinct count, times 100.
Both counts are Python ints, so a zero baseline raises
ZeroDivisionError — modelled as none — instead of producing a
non-finite float; otherwise the quotient is an ordinary finite float. -/
def customersDeltaPct (fc bc : List Customer) : Option ℚ :=
  if totalCustomersN bc = 0 then none
  else some (((totalCustomersN fc : ℚ) / (totalCustomersN bc : ℚ)) * 100)

/-- Total revenue: sum of purchase_amount (source lines 90-91); the sum
of an empty column is 0 in pandas. -/
def totalRevenue (ts : List Transaction) : ℚ :=
  (ts.map Transaction.purchase_amount).sum

/-- The figure shown next to the Total Revenue KPI (source line 91):
filtered sum divided by baseline sum, times 100. -/
def revenueDeltaPct (ftd btd : List Transaction) : PFloat :=
  PFloat.mul
    (PFloat.div (PFloat.val (totalRevenue ftd)) (PFloat.val (totalRevenue btd)))
    (PFloat.val 100)

/-- Average order value: mean of purchase_amount (source line 95). -/
def avgOrderValue (ts : List Transaction) : PFloat :=
  pmean (ts.map Transaction.purchase_amount)

/-- The figure shown next to the Average Order Value KPI (source
line 100): (filtered mean - baseline mean) / baseline mean * 100. -/
def aovDeltaPct (ftd btd : List Transaction) : PFloat :=
  PFloat.mul
    (PFloat.div (PFloat.sub (avgOrderValue ftd) (avgOrderValue btd))
      (avgOrderValue btd))
    (PFloat.val 100)

/-- Average purchase frequency: mean of the frequency feature over a
customer view (source line 104). -/
def avgFrequency (cs : List Customer) : PFloat :=
  pmean (cs.map Customer.frequency)

/-- The figure shown next to the Average Purchase Frequency KPI (source
line 109): (filtered mean - baseline mean) / baseline mean * 100. -/
def freqDeltaPct (fc bc : List Customer) : PFloat :=
  PFloat.mul
    (PFloat.div (PFloat.sub (avgFrequency fc) (avgFrequency bc))
      (avgFrequency bc))
    (PFloat.val 100)

/-- Modelled from the spec: the delta formula of section 4.2,
(filtered_value - baseline_value) / baseline_value * 100, written over
the same float model, for comparison with the code-side KPI figures. -/
def specDeltaPct (f b : PFloat) : PFloat :=
  PFloat.mul (PFloat.div (PFloat.sub f b) b) (PFloat.val 100)

/-- Modelled from the spec: the date window of section 4.1, rows whose
calendar date lies in the inclusive range, for comparison with the
code-side filteredData. -/
def specDateFilter (d : List Transaction) (s e : CalDate) : List Transaction :=
  d.filter (fun t => dateLe s t.order_date.date && dateLe t.order_date.date e)

/-- The nine features offered by the distribution selector (source
lines 199-203). -/
def featureOptions : List String :=
  [ "monetary", "frequency", "recency", "purchase_variability",
    "tenure_days", "purchases_per_day", "spend_per_day",
    "recency_ratio", "customer_value_score" ]

/-- The display-name dictionary of the selector's format function
(source lines 204-210): five entries only. -/
def featureLabelMap : List (String × String) :=
  [ ( "monetary", "Total Spend ($)" ),
    ( "frequency", "Purchase Frequency" ),
    ( "recency", "Days Since Last Purchase" ),
    ( "purchase_variability", "Purchase Variability" ),
    ( "tenure_days", "Customer Tenure (days)" ) ]

/-- Dictionary lookup of the format function; none models the KeyError
a Python dict raises on a missing key. -/
def featureLabel (x : String) : Option String :=
  (featureLabelMap.find? (fun p => decide (p.1 = x))).map Prod.snd

/-- Per-cluster group of a customer view: the rows whose cluster equals
the key (the groups of the groupby at source line 147). -/
def clusterGroup (fc : List Customer) (k : Nat) : List Customer :=
  fc.filter (fun c => decide (c.cluster = k))

/-- Cluster keys present in a customer view, distinct and ascending
(pandas groupby sorts its group keys). -/
def clusterKeys (fc : List Customer) : List Nat :=
  List.insertionSort (fun a b => a ≤ b) ((fc.map Customer.cluster).dedup)

/-- One row of the per-segment means table (source lines 147-152). -/
structure ClusterMetrics where
  cluster : Nat
  monetary : ℚ
  frequency : ℚ
  recency : ℚ
  customer_value_score : ℚ
deriving DecidableEq

/-- Per-segment means of the four radar metrics (source lines 147-152);
groups of a groupby are nonempty, so qmean is the true arithmetic mean
here. -/
def clusterMetrics (fc : List Customer) : List ClusterMetrics :=
  (clusterKeys fc).map (fun k =>
    { cluster := k
      monetary := qmean ((clusterGroup fc k).map Customer.monetary)
      frequency := qmean ((clusterGroup fc k).map Customer.frequency)
      recency := qmean ((clusterGroup fc k).map Customer.recency)
      customer_value_score :=
        qmean ((clusterGroup fc k).map Customer.customer_value_score) })

/-- Maximum of a rational column (pandas Series.max; the empty case is
never taken by the callers below, which always pass a column of the
nonempty means table). -/
def listMax : List ℚ → ℚ
  | [] => 0
  | [x] => x
  | x :: y :: t => max x (listMax (y :: t))

/-- One normalized radar point for a segment (source lines 164-178). -/
structure ProfilePoint where
  cluster : Nat
  monetary_norm : PFloat
  frequency_norm : PFloat
  recency_norm : PFloat
  value_norm : PFloat
deriving DecidableEq

/-- Segment Profile Engine, normalization loop (source lines 164-170):
each mean is divided by the column maximum over the groups present, and
recency is additionally inverted as 1 minus the ratio. -/
def segmentProfile (fc : List Customer) : List ProfilePoint :=
  let cm := clusterMetrics fc
  cm.map (fun row =>
    { cluster := row.cluster
      monetary_norm :=
        PFloat.div (PFloat.val row.monetary)
          (PFloat.val (listMax (cm.map ClusterMetrics.monetary)))
      frequency_norm :=
        PFloat.div (PFloat.val row.frequency)
          (PFloat.val (listMax (cm.map ClusterMetrics.frequency)))
      recency_norm :=
        PFloat.sub (PFloat.val 1)
          (PFloat.div (PFloat.val row.recency)
            (PFloat.val (listMax (cm.map ClusterMetrics.recency))))
      value_norm :=
        PFloat.div (PFloat.val row.customer_value_score)
          (PFloat.val (listMax (cm.map ClusterMetrics.customer_value_score))) })

/-- Left join of transactions to the customer table on customer_id
(source lines 254-258): a transaction row is replicated once per
matching customer row (pandas merge semantics), carrying that customer's
cluster; a row with no match is kept once with a null cluster. -/
def joined (td : List Transaction) (cd : List Customer) :
    List (Transaction × Option Nat) :=
  td.flatMap (fun t =>
    if cd.filter (fun c => decide (c.customer_id = t.customer_id)) = []
    then [ (t, none) ]
    else (cd.filter (fun c => decide (c.customer_id = t.customer_id))).map
      (fun c => (t, some c.cluster)))

/-- Joined rows that did find a customer. Pandas groupby, with its
default dropna, excludes rows whose cluster key is NaN, so only these
rows reach the aggregation at source line 261. -/
def matchedRows (td : List Transaction) (cd : List Customer) :
    List (Transaction × Option Nat) :=
  (joined td cd).filter (fun p => p.2.isSome)

/-- Group key of a joined row: (calendar month, cluster), as built at
source lines 260-261. The default 0 is never reached: keys are only
taken on matched rows, whose cluster is present. -/
def rollupKey (p : Transaction × Option Nat) : (Int × Nat) × Nat :=
  (p.1.order_date.yearMonth, p.2.getD 0)

/-- Ascending lexicographic order on (calendar month, cluster) keys,
mirroring the sorted group keys of pandas groupby. -/
def keyLe (a b : (Int × Nat) × Nat) : Bool :=
  decide (a.1.1 < b.1.1) ||
    (decide (a.1.1 = b.1.1) &&
      (decide (a.1.2 < b.1.2) ||
        (decide (a.1.2 = b.1.2) && decide (a.2 ≤ b.2))))

/-- Distinct group keys of the rollup, ascending. -/
def monthlyKeys (td : List Transaction) (cd : List Customer) :
    List ((Int × Nat) × Nat) :=
  List.insertionSort (fun a b => keyLe a b = true)
    (((matchedRows td cd).map rollupKey).dedup)

/-- The joined rows of one (month, cluster) group. -/
def monthlyGroup (td : List Transaction) (cd : List Customer)
    (k : (Int × Nat) × Nat) : List (Transaction × Option Nat) :=
  (matchedRows td cd).filter (fun p => decide (rollupKey p = k))

/-- One row of the monthly rollup (source lines 261-267). -/
structure MonthlyRow where
  year_month : Int × Nat
  cluster : Nat
  total_revenue : ℚ
  avg_order_value : ℚ
  unique_customers : Nat
  order_count : Nat
deriving DecidableEq

/-- Time-Series Aggregator (source lines 254-268): per (month, cluster)
group, the sum and mean of purchase_amount, the number of distinct
customers, and the row count; rollup groups are nonempty, so qmean is
the true arithmetic mean here. -/
def monthlyData (td : List Transaction) (cd : List Customer) :
    List MonthlyRow :=
  (monthlyKeys td cd).map (fun k =>
    { year_month := k.1
      cluster := k.2
      total_revenue :=
        ((monthlyGroup td cd k).map (fun p => p.1.purchase_amount)).sum
      avg_order_value :=
        qmean ((monthlyGroup td cd k).map (fun p => p.1.purchase_amount))
      unique_customers :=
        (((monthlyGroup td cd k).map (fun p => p.1.customer_id)).dedup).length
      order_count := (monthlyGroup td cd k).length })

/-- The monthly rollup as the dashboard computes it: from the
date-filtered transactions of the filter pass and the full customer
table (source lines 254-268); the segment selection is not consulted. -/
def monthlyRollupOfRun (data : List Transaction) (customers : List Customer)
    (dateRange : Option (CalDate × CalDate)) (clusterFilter : List Nat) :
    List MonthlyRow :=
  monthlyData ((applyFilters data customers dateRange clusterFilter).1) customers

/-! Helper lemmas about grouping: the groups of a group-by, indexed by a
duplicate-free key list covering every row's key, partition the rows. -/

/-- Adding one row to a grouped sum adds its value once: its key names
exactly one group of a duplicate-free key list. -/
lemma sum_groups_cons {α κ : Type} [DecidableEq κ] (g : α → ℚ) (f : α → κ)
    (x : α) (t : List α) :
    ∀ ks : List κ, ks.Nodup → f x ∈ ks →
      (ks.map (fun k => (((x :: t).filter (fun y => decide (f y = k))).map g).sum)).sum
        = g x + (ks.map (fun k => ((t.filter (fun y => decide (f y = k))).map g).sum)).sum := by
  intro ks
  induction ks with
  | nil => intro _ h; simp at h
  | cons k ks ih =>
    intro hnd hmem
    rcases List.nodup_cons.mp hnd with ⟨hk, hnd'⟩
    by_cases hfx : f x = k
    · have htail : ks.map (fun k' =>
            (((x :: t).filter (fun y => decide (f y = k'))).map g).sum)
          = ks.map (fun k' => ((t.filter (fun y => decide (f y = k'))).map g).sum) := by
        apply List.map_congr_left
        intro k' hk'
        have hne : ¬ (f x = k') := by
          intro h
          exact hk (by rw [← hfx, h]; exact hk')
        simp [List.filter_cons, hne]
      have hhead : List.filter (fun y => decide (f y = k)) (x :: t)
          = x :: List.filter (fun y => decide (f y = k)) t := by
        rw [List.filter_cons, if_pos (by simp [hfx])]
      simp only [List.map_cons, List.sum_cons, htail, hhead]
      ring
    · have hmem' : f x ∈ ks := by
        rcases List.mem_cons.mp hmem with h | h
        · exact absurd h hfx
        · exact h
      have hhead : List.filter (fun y => decide (f y = k)) (x :: t)
          = List.filter (fun y => decide (f y = k)) t := by
        rw [List.filter_cons, if_neg (by simp [hfx])]
      simp only [List.map_cons, List.sum_cons, hhead, ih hnd' hmem']
      ring

/-- Summing each group's contribution over a duplicate-free covering key
list recovers the sum over all rows. -/
lemma sum_groups {α κ : Type} [DecidableEq κ] (g : α → ℚ) (f : α → κ) :
    ∀ (l : List α) (ks : List κ), ks.Nodup → (∀ x ∈ l, f x ∈ ks) →
      (ks.map (fun k => ((l.filter (fun y => decide (f y = k))).map g).sum)).sum
        = (l.map g).sum := by
  intro l
  induction l with
  | nil =>
    intro ks _ _
    simp
  | cons x t ih =>
    intro ks hnd hcov
    rw [sum_groups_cons g f x t ks hnd (hcov x (by simp))]
    rw [ih ks hnd (fun y hy => hcov y (by simp [hy]))]
    simp

/-- Adding one row to the grouped rows inserts it, up to permutation,
at the front: its key names exactly one group. -/
lemma flatten_groups_cons {α κ : Type} [DecidableEq κ] (f : α → κ)
    (x : α) (t : List α) :
    ∀ ks : List κ, ks.Nodup → f x ∈ ks →
      (ks.map (fun k => (x :: t).filter (fun y => decide (f y = k)))).flatten.Perm
        (x :: (ks.map (fun k => t.filter (fun y => decide (f y = k)))).flatten) := by
  intro ks
  induction ks with
  | nil => intro _ h; simp at h
  | cons k ks ih =>
    intro hnd hmem
    rcases List.nodup_cons.mp hnd with ⟨hk, hnd'⟩
    by_cases hfx : f x = k
    · have htail : ks.map (fun k' => (x :: t).filter (fun y => decide (f y = k')))
          = ks.map (fun k' => t.filter (fun y => decide (f y = k'))) := by
        apply List.map_congr_left
        intro k' hk'
        have hne : ¬ (f x = k') := by
          intro h
          exact hk (by rw [← hfx, h]; exact hk')
        simp [List.filter_cons, hne]
      have hhead : List.filter (fun y => decide (f y = k)) (x :: t)
          = x :: List.filter (fun y => decide (f y = k)) t := by
        rw [List.filter_cons, if_pos (by simp [hfx])]
      simp only [List.map_cons, List.flatten_cons, htail, hhead, List.cons_append]
      exact List.Perm.refl _
    · have hmem' : f x ∈ ks := by
        rcases List.mem_cons.mp hmem with h | h
        · exact absurd h hfx
        · exact h
      have hhead : List.filter (fun y => decide (f y = k)) (x :: t)
          = List.filter (fun y => decide (f y = k)) t := by
        rw [List.filter_cons, if_neg (by simp [hfx])]
      simp only [List.map_cons, List.flatten_cons, hhead]
      exact List.Perm.trans (List.Perm.append_left _ (ih hnd' hmem')) List.perm_middle

/-- The groups of a group-by, taken over a duplicate-free covering key
list, flatten to a permutation of the rows. -/
lemma flatten_groups {α κ : Type} [DecidableEq κ] (f : α → κ) :
    ∀ (l : List α) (ks : List κ), ks.Nodup → (∀ x ∈ l, f x ∈ ks) →
      (ks.map (fun k => l.filter (fun y => decide (f y = k)))).flatten.Perm l := by
  intro l
  induction l with
  | nil =>
    intro ks _ _
    have h : (ks.map (fun k =>
        List.filter (fun y => decide (f y = k)) ([] : List α))).flatten = [] := by
      induction ks with
      | nil => rfl
      | cons k ks ihk => simp [ihk]
    rw [h]
  | cons x t ih =>
    intro ks hnd hcov
    exact ((flatten_groups_cons f x t ks hnd (hcov x (by simp))).trans
      ((ih ks hnd (fun y hy => hcov y (by simp [hy]))).cons x))

/-- Every member of a rational column is bounded by its maximum. -/
lemma mem_le_listMax : ∀ (l : List ℚ) (x : ℚ), x ∈ l → x ≤ listMax l := by
  intro l
  induction l with
  | nil => intro x hx; simp at hx
  | cons a t ih =>
    intro x hx
    cases t with
    | nil =>
      rcases List.mem_cons.mp hx with rfl | h
      · exact le_of_eq rfl
      · simp at h
    | cons b u =>
      rcases List.mem_cons.mp hx with rfl | h
      · exact le_max_left _ _
      · exact le_trans (ih x h) (le_max_right _ _)

/-- Deduplicating a nonempty constant list leaves the one value. -/
lemma dedup_const {κ : Type} [DecidableEq κ] (k : κ) :
    ∀ l : List κ, l ≠ [] → (∀ x ∈ l, x = k) → l.dedup = [k] := by
  intro l
  induction l with
  | nil => intro h; exact absurd rfl h
  | cons x t ih =>
    intro _ hall
    have hx : x = k := hall x (by simp)
    cases t with
    | nil => simp [hx]
    | cons y u =>
      have hmem : x ∈ y :: u := by
        have hy : y = k := hall y (by simp)
        rw [hx, ← hy]
        exact List.mem_cons_self y u
      rw [List.dedup_cons_of_mem hmem]
      exact ih (by simp) (fun z hz => hall z (List.mem_cons_of_mem x hz))

/-- A transaction finds a customer in the join exactly when its id
occurs in the customer table. -/
lemma matched_iff (cd : List Customer) (t : Transaction) :
    t.customer_id ∈ cd.map Customer.customer_id ↔
      cd.filter (fun c => decide (c.customer_id = t.customer_id)) ≠ [] := by
  constructor
  · intro h hnil
    rcases List.mem_map.mp h with ⟨c, hc, hcid⟩
    have := (List.filter_eq_nil_iff.mp hnil) c hc
    simp [hcid] at this
  · intro h
    rcases List.exists_mem_of_ne_nil _ h with ⟨c, hc⟩
    rcases List.mem_filter.mp hc with ⟨hcd, hcid⟩
    have : c.customer_id = t.customer_id := by simpa using hcid
    exact this ▸ List.mem_map_of_mem Customer.customer_id hcd

/-- With unique customer ids, the join finds at most one matching row. -/
lemma filter_cid_length_le_one :
    ∀ (cd : List Customer), (cd.map Customer.customer_id).Nodup → ∀ a : Nat,
      (cd.filter (fun c => decide (c.customer_id = a))).length ≤ 1 := by
  intro cd
  induction cd with
  | nil => intro _ a; simp
  | cons c rest ih =>
    intro hnd a
    rw [List.map_cons] at hnd
    rcases List.nodup_cons.mp hnd with ⟨hc, hnd'⟩
    by_cases hcid : c.customer_id = a
    · have hrest : rest.filter (fun x => decide (x.customer_id = a)) = [] := by
        apply List.filter_eq_nil_iff.mpr
        intro x hx
        simp only [decide_eq_true_eq]
        intro hxa
        exact hc (by
          have hmm : x.customer_id ∈ List.map Customer.customer_id rest :=
            List.mem_map_of_mem Customer.customer_id hx
          rw [hcid, ← hxa]
          exact hmm)
      rw [List.filter_cons, if_pos (by simp [hcid]), hrest]
      simp
    · rw [List.filter_cons, if_neg (by simp [hcid])]
      exact ih hnd' a

/-- Unfolding the matched rows of the join one transaction at a time:
a matched transaction contributes its joined rows, an unmatched one
contributes nothing (its null-cluster row is dropped). -/
lemma matchedRows_cons (t : Transaction) (ts : List Transaction)
    (cd : List Customer) :
    matchedRows (t :: ts) cd =
      (if cd.filter (fun c => decide (c.customer_id = t.customer_id)) = []
       then []
       else (cd.filter (fun c => decide (c.customer_id = t.customer_id))).map
         (fun c => (t, some c.cluster))) ++ matchedRows ts cd := by
  unfold matchedRows joined
  rw [List.flatMap_cons, List.filter_append]
  congr 1
  by_cases h : cd.filter (fun c => decide (c.customer_id = t.customer_id)) = []
  · simp [h]
  · rw [if_neg h, if_neg h]
    apply List.filter_eq_self.mpr
    intro p hp
    rcases List.mem_map.mp hp with ⟨c, _, rfl⟩
    simp

/-- Dropping the unmatched transactions up front does not change the
matched rows of the join. -/
lemma matchedRows_filter (td : List Transaction) (cd : List Customer) :
    matchedRows td cd =
      matchedRows (td.filter (fun t =>
        decide (t.customer_id ∈ cd.map Customer.customer_id))) cd := by
  induction td with
  | nil => rfl
  | cons t ts ih =>
    by_cases h : t.customer_id ∈ cd.map Customer.customer_id
    · have hne := (matched_iff cd t).mp h
      rw [matchedRows_cons, if_neg hne, List.filter_cons, if_pos (by simp [h]),
        matchedRows_cons, if_neg hne, ih]
    · have hnil : cd.filter (fun c => decide (c.customer_id = t.customer_id)) = [] := by
        by_contra hh
        exact h ((matched_iff cd t).mpr hh)
      rw [matchedRows_cons, if_pos hnil, List.filter_cons, if_neg (by simp [h]), ih]
      simp

/-- The monthly rollup is a function of the matched rows alone. -/
lemma monthlyData_congr (td td' : List Transaction) (cd : List Customer)
    (h : matchedRows td cd = matchedRows td' cd) :
    monthlyData td cd = monthlyData td' cd := by
  unfold monthlyData monthlyKeys monthlyGroup
  rw [h]

/-- With unique customer ids, the matched rows carry exactly the
amounts of the matched transactions. -/
lemma matched_sum (cd : List Customer)
    (hnd : (cd.map Customer.customer_id).Nodup) :
    ∀ td : List Transaction,
      ((matchedRows td cd).map (fun p => p.1.purchase_amount)).sum =
        totalRevenue (td.filter (fun t =>
          decide (t.customer_id ∈ cd.map Customer.customer_id))) := by
  intro td
  induction td with
  | nil => simp [matchedRows, joined, totalRevenue]
  | cons t ts ih =>
    rw [matchedRows_cons, List.map_append, List.sum_append]
    by_cases h : t.customer_id ∈ cd.map Customer.customer_id
    · have hne := (matched_iff cd t).mp h
      have hlen : (cd.filter (fun c => decide (c.customer_id = t.customer_id))).length = 1 := by
        have hle := filter_cid_length_le_one cd hnd t.customer_id
        have hpos : 0 < (cd.filter (fun c => decide (c.customer_id = t.customer_id))).length :=
          List.length_pos.mpr hne
        omega
      rcases List.length_eq_one.mp hlen with ⟨c, hc⟩
      rw [if_neg hne, hc, List.filter_cons, if_pos (by simp [h]), ih]
      simp [totalRevenue]
    · have hnil : cd.filter (fun c => decide (c.customer_id = t.customer_id)) = [] := by
        by_contra hh
        exact h ((matched_iff cd t).mpr hh)
      rw [if_pos hnil, List.filter_cons, if_neg (by simp [h]), ih]
      simp

/-- Revenue conservation for the matched transactions: the rollup's
total_revenue column sums to the amount sum over the matched rows. -/
lemma rollup_conserves_matched (td : List Transaction) (cd : List Customer)
    (hnd : (cd.map Customer.customer_id).Nodup) :
    ((monthlyData td cd).map MonthlyRow.total_revenue).sum =
      totalRevenue (td.filter (fun t =>
        decide (t.customer_id ∈ cd.map Customer.customer_id))) := by
  have h1 : (monthlyData td cd).map MonthlyRow.total_revenue
      = (monthlyKeys td cd).map (fun k =>
          ((monthlyGroup td cd k).map (fun p => p.1.purchase_amount)).sum) := by
    unfold monthlyData
    rw [List.map_map]
    rfl
  have hperm : (monthlyKeys td cd).Perm (((matchedRows td cd).map rollupKey).dedup) :=
    List.perm_insertionSort _ _
  have h2 : ((monthlyKeys td cd).map (fun k =>
        ((monthlyGroup td cd k).map (fun p => p.1.purchase_amount)).sum)).sum
      = ((((matchedRows td cd).map rollupKey).dedup).map (fun k =>
        ((monthlyGroup td cd k).map (fun p => p.1.purchase_amount)).sum)).sum :=
    (hperm.map _).sum_eq
  have h3 : ((((matchedRows td cd).map rollupKey).dedup).map (fun k =>
        ((monthlyGroup td cd k).map (fun p => p.1.purchase_amount)).sum)).sum
      = ((matchedRows td cd).map (fun p => p.1.purchase_amount)).sum := by
    exact sum_groups (fun p => p.1.purchase_amount) rollupKey (matchedRows td cd)
      (((matchedRows td cd).map rollupKey).dedup)
      (List.nodup_dedup _)
      (fun p hp => List.mem_dedup.mpr (List.mem_map_of_mem rollupKey hp))
  rw [h1, h2, h3]
  exact matched_sum cd hnd td

/-- Non-finite left operand propagates through subtraction. -/
lemma pfloat_nan_sub (x : PFloat) : PFloat.sub PFloat.nan x = PFloat.nan := by
  cases x <;> rfl

/-- Non-finite right operand propagates through subtraction. -/
lemma pfloat_sub_nan (x : PFloat) : PFloat.sub x PFloat.nan = PFloat.nan := by
  cases x <;> rfl

/-- Non-finite left operand propagates through division. -/
lemma pfloat_nan_div (x : PFloat) : PFloat.div PFloat.nan x = PFloat.nan := by
  cases x <;> rfl

/-- Non-finite left operand propagates through multiplication. -/
lemma pfloat_nan_mul (x : PFloat) : PFloat.mul PFloat.nan x = PFloat.nan := by
  cases x <;> rfl

/-- Division by a zero float is non-finite. -/
lemma pfloat_div_zero (x : PFloat) : PFloat.div x (PFloat.val 0) = PFloat.nan := by
  cases x with
  | val a => simp [PFloat.div]
  | nan => rfl

/-! Concrete rows used to instantiate and to refute claims. -/

/-- January transaction of customer 1 over 1200. -/
def txJan : Transaction :=
  { customer_id := 1
    order_date := { year := 2024, month := 1, day := 15, tod := 3600 }
    purchase_amount := 1200
    currency := "USD" }

/-- March transaction of customer 2 over -200 (a refund). -/
def txMar : Transaction :=
  { customer_id := 2
    order_date := { year := 2024, month := 3, day := 2, tod := 0 }
    purchase_amount := -200
    currency := "USD" }

/-- May transaction of customer 7, who is absent from the customer
table in the scenarios below. -/
def txU : Transaction :=
  { customer_id := 7
    order_date := { year := 2024, month := 5, day := 10, tod := 0 }
    purchase_amount := 5
    currency := "USD" }

/-- Two-transaction table whose full-population revenue is 1000 while
its January window holds 1200. -/
def c1Data : List Transaction := [ txJan, txMar ]

/-- The January 2024 window. -/
def c1Range : Option (CalDate × CalDate) := some ((2024, 1, 1), (2024, 1, 31))

/-- A 2025 window that no sample transaction falls into. -/
def c4Range : Option (CalDate × CalDate) := some ((2025, 1, 1), (2025, 1, 31))

/-- Customer 1, segment 0, with unit metrics. -/
def custA : Customer :=
  { customer_id := 1, cluster := 0, monetary := 1, frequency := 1, recency := 1,
    purchase_variability := 0, tenure_days := 0, purchases_per_day := 0,
    spend_per_day := 0, recency_ratio := 0, customer_value_score := 1,
    first_purchase := { year := 2024, month := 1, day := 1, tod := 0 },
    last_purchase := { year := 2024, month := 1, day := 1, tod := 0 } }

/-- Customer 2, segment 1, with metrics all 2. -/
def custB : Customer :=
  { customer_id := 2, cluster := 1, monetary := 2, frequency := 2, recency := 2,
    purchase_variability := 0, tenure_days := 0, purchases_per_day := 0,
    spend_per_day := 0, recency_ratio := 0, customer_value_score := 2,
    first_purchase := { year := 2024, month := 1, day := 1, tod := 0 },
    last_purchase := { year := 2024, month := 1, day := 1, tod := 0 } }

/-- Customer 3, segment 1, with zero monetary total. -/
def custZ : Customer :=
  { customer_id := 3, cluster := 1, monetary := 0, frequency := 1, recency := 1,
    purchase_variability := 0, tenure_days := 0, purchases_per_day := 0,
    spend_per_day := 0, recency_ratio := 0, customer_value_score := 1,
    first_purchase := { year := 2024, month := 1, day := 1, tod := 0 },
    last_purchase := { year := 2024, month := 1, day := 1, tod := 0 } }

/-- Customer 4, segment 0, with zero monetary total. -/
def custW : Customer :=
  { customer_id := 4, cluster := 0, monetary := 0, frequency := 2, recency := 3,
    purchase_variability := 0, tenure_days := 0, purchases_per_day := 0,
    spend_per_day := 0, recency_ratio := 0, customer_value_score := 4,
    first_purchase := { year := 2024, month := 1, day := 1, tod := 0 },
    last_purchase := { year := 2024, month := 1, day := 1, tod := 0 } }

/-- Claim C1 is false as stated: on a table whose whole-population
revenue is 1000 and whose filtered window holds 1200, the reported
revenue figure is 120.0 (the ratio filtered/baseline times 100), not
the claimed 20.0. -/
theorem claim_c1_counterexample :
    totalRevenue c1Data = 1000 ∧
    totalRevenue (filteredData c1Data c1Range) = 1200 ∧
    revenueDeltaPct (filteredData c1Data c1Range) c1Data = PFloat.val 120 ∧
    PFloat.val 120 ≠ PFloat.val (20 : ℚ) := by
  refine ⟨?_, ?_, ?_, ?_⟩
  · norm_num [totalRevenue, c1Data, txJan, txMar]
  · norm_num [totalRevenue, filteredData, c1Data, c1Range, txJan, txMar,
      dateLe, Timestamp.date]
  · norm_num [revenueDeltaPct, totalRevenue, filteredData, c1Data, c1Range,
      txJan, txMar, dateLe, Timestamp.date, PFloat.div, PFloat.mul]
  · intro h
    rw [PFloat.val.injEq] at h
    norm_num at h

/-- Claim C1 (amended): only the Average Order Value and Average
Purchase Frequency figures follow the spec's delta formula
(filtered - baseline) / baseline * 100; the Total Customers and Total
Revenue figures are the plain ratios filtered/baseline * 100. -/
theorem claim_c1_theorem :
    ∀ (ftd btd : List Transaction) (fc bc : List Customer),
      aovDeltaPct ftd btd = specDeltaPct (avgOrderValue ftd) (avgOrderValue btd)
      ∧ freqDeltaPct fc bc = specDeltaPct (avgFrequency fc) (avgFrequency bc)
      ∧ revenueDeltaPct ftd btd =
          PFloat.mul (PFloat.div (PFloat.val (totalRevenue ftd))
            (PFloat.val (totalRevenue btd))) (PFloat.val 100)
      ∧ customersDeltaPct fc bc =
          (if totalCustomersN bc = 0 then none
           else some (((totalCustomersN fc : ℚ) / (totalCustomersN bc : ℚ)) * 100)) := by
  intro ftd btd fc bc
  exact ⟨rfl, rfl, rfl, rfl⟩

/-- Claim C2 is false as stated: a transaction of customer 7, who has
no row in the (empty) customer table, receives a null segment in the
join but the monthly rollup contains no bucket at all for it — the row
is dropped, not kept under an unknown-segment key. -/
theorem claim_c2_counterexample :
    joined [ txU ] [] = [ (txU, none) ] ∧
    monthlyRollupOfRun [ txU ] [] none [ 0, 1 ] = [] ∧
    filteredData [ txU ] none = [ txU ] := by
  refine ⟨?_, ?_, ?_⟩ <;> decide

/-- Claim C2 (amended): transactions with no matching customer get a
null cluster from the left join, but the month/cluster group-by then
drops null-keyed rows, so the monthly rollup is unchanged when the
unmatched transactions are removed up front: only matched transactions
are ever bucketed. -/
theorem claim_c2_theorem :
    ∀ (td : List Transaction) (cd : List Customer),
      monthlyData td cd =
        monthlyData (td.filter (fun t =>
          decide (t.customer_id ∈ cd.map Customer.customer_id))) cd :=
  fun td cd => monthlyData_congr _ _ _ (matchedRows_filter td cd)

/-- Claim C3 is false as stated: with a one-transaction table over 5
and an empty customer table, the rollup's revenue column sums to 0
while the filtered transactions sum to 5 — revenue of unmatched
transactions is not conserved. -/
theorem claim_c3_counterexample :
    ((monthlyRollupOfRun [ txU ] [] none [ 0, 1 ]).map MonthlyRow.total_revenue).sum = 0 ∧
    totalRevenue (filteredData [ txU ] none) = 5 ∧ (0 : ℚ) ≠ 5 := by
  refine ⟨by decide, ?_, by norm_num⟩
  norm_num [totalRevenue, filteredData, txU]

/-- Claim C3 (amended): provided customer ids are unique in the
customer table (the data-model invariant), the rollup's total_revenue
column sums to the purchase_amount sum over the matched filtered
transactions only; unmatched transactions' revenue is excluded. -/
theorem claim_c3_theorem :
    ∀ (data : List Transaction) (customers : List Customer)
      (dr : Option (CalDate × CalDate)) (ss : List Nat),
      (customers.map Customer.customer_id).Nodup →
      ((monthlyRollupOfRun data customers dr ss).map MonthlyRow.total_revenue).sum =
        totalRevenue ((filteredData data dr).filter (fun t =>
          decide (t.customer_id ∈ customers.map Customer.customer_id))) :=
  fun d c dr _ hnd => rollup_conserves_matched (filteredData d dr) c hnd

/-- Witness for C3 at a concrete run: one matched transaction, one
customer, no date filter. -/
theorem claim_c3_witness :
    (([ custA ] : List Customer).map Customer.customer_id).Nodup ∧
    ((monthlyRollupOfRun [ txJan ] [ custA ] none [ 0, 1 ]).map
        MonthlyRow.total_revenue).sum =
      totalRevenue ((filteredData [ txJan ] none).filter (fun t =>
        decide (t.customer_id ∈ ([ custA ] : List Customer).map Customer.customer_id))) :=
  ⟨by decide, claim_c3_theorem [ txJan ] [ custA ] none [ 0, 1 ] (by decide)⟩

/-- Claim C5: with a two-ended range the filtered transactions are
exactly the rows whose calendar date (time-of-day ignored) lies
inclusively between the ends; with no range the full table is kept;
and the segment selection never affects the transaction view. -/
theorem claim_c5_theorem :
    ∀ (d : List Transaction) (c : List Customer) (ss ss2 : List Nat),
      (∀ s e, (applyFilters d c (some (s, e)) ss).1 = specDateFilter d s e)
      ∧ (applyFilters d c none ss).1 = d
      ∧ ∀ dr, (applyFilters d c dr ss).1 = (applyFilters d c dr ss2).1 := by
  intro d c ss ss2
  exact ⟨fun s e => rfl, rfl, fun dr => rfl⟩

/-- Witness for C5 at a concrete run. -/
theorem claim_c5_witness :
    (applyFilters c1Data [ custA ] c1Range [ 0, 1 ]).1
        = specDateFilter c1Data (2024, 1, 1) (2024, 1, 31)
    ∧ (applyFilters c1Data [ custA ] none [ 0, 1 ]).1 = c1Data
    ∧ (applyFilters c1Data [ custA ] c1Range [ 0, 1 ]).1
        = (applyFilters c1Data [ custA ] c1Range [ 1 ]).1 :=
  ⟨(claim_c5_theorem c1Data [ custA ] [ 0, 1 ] [ 1 ]).1 (2024, 1, 1) (2024, 1, 31),
   (claim_c5_theorem c1Data [ custA ] [ 0, 1 ] [ 1 ]).2.1,
   (claim_c5_theorem c1Data [ custA ] [ 0, 1 ] [ 1 ]).2.2 c1Range⟩

/-- Claim C9: the display-name lookup behind the feature selector is
defined for only five of the nine offered features; the other four
(purchases_per_day, spend_per_day, recency_ratio, customer_value_score)
hit a missing dictionary key. -/
theorem claim_c9_theorem :
    featureOptions.length = 9 ∧
    featureLabel "purchases_per_day" = none ∧
    featureLabel "spend_per_day" = none ∧
    featureLabel "recency_ratio" = none ∧
    featureLabel "customer_value_score" = none ∧
    featureLabel "monetary" = some "Total Spend ($)" ∧
    featureLabel "frequency" = some "Purchase Frequency" ∧
    featureLabel "recency" = some "Days Since Last Purchase" ∧
    featureLabel "purchase_variability" = some "Purchase Variability" ∧
    featureLabel "tenure_days" = some "Customer Tenure (days)" ∧
    "purchases_per_day" ∈ featureOptions ∧
    "spend_per_day" ∈ featureOptions ∧
    "recency_ratio" ∈ featureOptions ∧
    "customer_value_score" ∈ featureOptions := by
  refine ⟨?_, ?_, ?_, ?_, ?_, ?_, ?_, ?_, ?_, ?_, ?_, ?_, ?_, ?_⟩ <;> decide

/-- Claim C10: the monthly rollup is computed from the date-filtered
transactions joined to the full customer table, so two runs differing
only in the segment selection produce identical rollups. -/
theorem claim_c10_theorem :
    ∀ (data : List Transaction) (customers : List Customer)
      (dr : Option (CalDate × CalDate)) (ss ss2 : List Nat),
      monthlyRollupOfRun data customers dr ss
        = monthlyRollupOfRun data customers dr ss2 :=
  fun _ _ _ _ _ => rfl

/-- Claim C4 is false as stated: a date window containing no
transactions makes the filtered view empty, the average order value
NaN, and the reported delta NaN — the non-finite value is handed to
the display instead of an unavailable marker. -/
theorem claim_c4_counterexample :
    filteredData [ txMar ] c4Range = [] ∧
    avgOrderValue (filteredData [ txMar ] c4Range) = PFloat.nan ∧
    aovDeltaPct (filteredData [ txMar ] c4Range) [ txMar ] = PFloat.nan := by
  refine ⟨?_, ?_, ?_⟩ <;> decide

/-- Claim C4 (amended): the engine divides unconditionally and marks
nothing unavailable; an empty filtered view makes the average order
value and its delta NaN, both propagated to the display, while the
empty-view sum stays 0; a zero float revenue baseline likewise makes
the reported delta non-finite; and a zero distinct-customer baseline
raises an uncaught integer ZeroDivisionError at the first KPI instead
of any figure being reported at all. -/
theorem claim_c4_theorem :
    (∀ (d : List Transaction) (dr : Option (CalDate × CalDate)),
        filteredData d dr = [] →
        avgOrderValue (filteredData d dr) = PFloat.nan ∧
        aovDeltaPct (filteredData d dr) d = PFloat.nan ∧
        totalRevenue (filteredData d dr) = 0) ∧
    (∀ ftd btd : List Transaction, totalRevenue btd = 0 →
        revenueDeltaPct ftd btd = PFloat.nan) ∧
    (∀ fc bc : List Customer, totalCustomersN bc = 0 →
        customersDeltaPct fc bc = none) := by
  refine ⟨?_, ?_, ?_⟩
  · intro d dr h
    rw [h]
    refine ⟨rfl, ?_, rfl⟩
    unfold aovDeltaPct
    have hnil : avgOrderValue [] = PFloat.nan := rfl
    rw [hnil, pfloat_nan_sub, pfloat_nan_div, pfloat_nan_mul]
  · intro ftd btd h
    unfold revenueDeltaPct
    rw [h, pfloat_div_zero, pfloat_nan_mul]
  · intro fc bc h
    unfold customersDeltaPct
    rw [if_pos h]

/-- Witness for C4 at concrete inputs: an empty January-2025 window
over the January-2024 transaction, and empty baselines. -/
theorem claim_c4_witness :
    (avgOrderValue (filteredData [ txJan ] c4Range) = PFloat.nan ∧
     aovDeltaPct (filteredData [ txJan ] c4Range) [ txJan ] = PFloat.nan ∧
     totalRevenue (filteredData [ txJan ] c4Range) = 0) ∧
    revenueDeltaPct [ txJan ] [] = PFloat.nan ∧
    customersDeltaPct [ custA ] [] = none :=
  ⟨claim_c4_theorem.1 [ txJan ] c4Range (by decide),
   claim_c4_theorem.2.1 [ txJan ] [] rfl,
   claim_c4_theorem.2.2 [ custA ] [] rfl⟩

/-- Claim C6: in both filter branches every filtered customer's
cluster lies in the selected segment set, and the per-cluster groups
of the profile engine flatten to a permutation of the filtered
customer view — a partition. -/
theorem claim_c6_theorem :
    ∀ (data : List Transaction) (customers : List Customer)
      (dr : Option (CalDate × CalDate)) (ss : List Nat),
      (∀ c ∈ filteredCustomers data customers dr ss, c.cluster ∈ ss) ∧
      ((clusterKeys (filteredCustomers data customers dr ss)).map
        (fun k => clusterGroup (filteredCustomers data customers dr ss) k)).flatten.Perm
        (filteredCustomers data customers dr ss) := by
  intro d c dr ss
  constructor
  · intro x hx
    cases dr with
    | none =>
      rcases List.mem_filter.mp hx with ⟨_, hcond⟩
      simpa using hcond
    | some se =>
      rcases List.mem_filter.mp hx with ⟨_, hcond⟩
      rw [Bool.and_eq_true] at hcond
      simpa using hcond.2
  · apply flatten_groups Customer.cluster
    · exact ((List.perm_insertionSort _ _).nodup_iff).mpr (List.nodup_dedup _)
    · intro x hx
      exact (List.mem_insertionSort _).mpr
        (List.mem_dedup.mpr (List.mem_map_of_mem Customer.cluster hx))

/-- Witness for C6 at a concrete run. -/
theorem claim_c6_witness :
    custA.cluster ∈ [ 0, 1 ] ∧
    ((clusterKeys (filteredCustomers [ txJan ] [ custA ] none [ 0, 1 ])).map
      (fun k => clusterGroup (filteredCustomers [ txJan ] [ custA ] none [ 0, 1 ]) k)).flatten.Perm
      (filteredCustomers [ txJan ] [ custA ] none [ 0, 1 ]) :=
  ⟨(claim_c6_theorem [ txJan ] [ custA ] none [ 0, 1 ]).1 custA (by decide),
   (claim_c6_theorem [ txJan ] [ custA ] none [ 0, 1 ]).2⟩

/-- Claim C7 is false as stated: a single-segment view whose sole
customer has zero monetary total yields a NaN monetary coordinate
(0/0), not the claimed 1.0. -/
theorem claim_c7_counterexample :
    custZ.cluster = 1 ∧
    segmentProfile [ custZ ] =
      [ { cluster := 1, monetary_norm := PFloat.nan,
          frequency_norm := PFloat.val 1, recency_norm := PFloat.val 0,
          value_norm := PFloat.val 1 } ] ∧
    PFloat.nan ≠ PFloat.val 1 := by
  refine ⟨rfl, ?_, by decide⟩
  have h1 : clusterKeys [ custZ ] = [ 1 ] := by decide
  have h2 : clusterGroup [ custZ ] 1 = [ custZ ] := by decide
  unfold segmentProfile clusterMetrics
  rw [h1]
  simp only [List.map_cons, List.map_nil, h2]
  norm_num [qmean, custZ, listMax, PFloat.div, PFloat.sub]

/-- Claim C7 (amended): whenever exactly one segment is present and
its four group means are nonzero, the normalization formula itself
yields 1.0 for the monetary, frequency and value-score coordinates and
0.0 for the inverted recency coordinate — no special case is involved;
a zero group mean instead yields a NaN coordinate. -/
theorem claim_c7_theorem :
    ∀ (fc : List Customer) (k : Nat),
      fc ≠ [] → (∀ c ∈ fc, c.cluster = k) →
      qmean (fc.map Customer.monetary) ≠ 0 →
      qmean (fc.map Customer.frequency) ≠ 0 →
      qmean (fc.map Customer.recency) ≠ 0 →
      qmean (fc.map Customer.customer_value_score) ≠ 0 →
      segmentProfile fc =
        [ { cluster := k, monetary_norm := PFloat.val 1,
            frequency_norm := PFloat.val 1, recency_norm := PFloat.val 0,
            value_norm := PFloat.val 1 } ] := by
  intro fc k hne hall hm hf hr hv
  have hkeys : clusterKeys fc = [ k ] := by
    unfold clusterKeys
    have hmap : ∀ x ∈ fc.map Customer.cluster, x = k := by
      intro x hx
      rcases List.mem_map.mp hx with ⟨c, hc, rfl⟩
      exact hall c hc
    have hnil : fc.map Customer.cluster ≠ [] := by
      intro h
      exact hne (List.map_eq_nil_iff.mp h)
    rw [dedup_const k _ hnil hmap]
    rfl
  have hgroup : clusterGroup fc k = fc := by
    unfold clusterGroup
    apply List.filter_eq_self.mpr
    intro c hc
    simp [hall c hc]
  unfold segmentProfile clusterMetrics
  rw [hkeys]
  simp only [List.map_cons, List.map_nil, hgroup]
  norm_num [listMax, PFloat.div, PFloat.sub, hm, hf, hr, hv, div_self]

/-- Witness for C7 at a concrete single-segment view. -/
theorem claim_c7_witness :
    ([ custB ] : List Customer) ≠ [] ∧
    segmentProfile [ custB ] =
      [ { cluster := 1, monetary_norm := PFloat.val 1,
          frequency_norm := PFloat.val 1, recency_norm := PFloat.val 0,
          value_norm := PFloat.val 1 } ] :=
  ⟨by decide,
   claim_c7_theorem [ custB ] 1 (by decide) (by decide)
     (by norm_num [qmean, custB]) (by norm_num [qmean, custB])
     (by norm_num [qmean, custB]) (by norm_num [qmean, custB])⟩

/-- Claim C8 is false as stated: a view whose only segment has zero
monetary mean produces a NaN monetary coordinate (0/0), which lies in
no interval. -/
theorem claim_c8_counterexample :
    segmentProfile [ custW ] =
      [ { cluster := 0, monetary_norm := PFloat.nan,
          frequency_norm := PFloat.val 1, recency_norm := PFloat.val 0,
          value_norm := PFloat.val 1 } ] ∧
    ¬ PFloat.inUnit PFloat.nan := by
  refine ⟨?_, by simp [PFloat.inUnit]⟩
  have h1 : clusterKeys [ custW ] = [ 0 ] := by decide
  have h2 : clusterGroup [ custW ] 0 = [ custW ] := by decide
  unfold segmentProfile clusterMetrics
  rw [h1]
  simp only [List.map_cons, List.map_nil, h2]
  norm_num [qmean, custW, listMax, PFloat.div, PFloat.sub]

/-- Claim C8 (amended): provided every per-group mean is nonnegative
and each metric's maximum mean is positive, every coordinate of every
normalized profile vector lies in the closed unit interval. -/
theorem claim_c8_theorem :
    ∀ fc : List Customer,
      (∀ row ∈ clusterMetrics fc,
          0 ≤ row.monetary ∧ 0 ≤ row.frequency ∧ 0 ≤ row.recency ∧
          0 ≤ row.customer_value_score) →
      0 < listMax ((clusterMetrics fc).map ClusterMetrics.monetary) →
      0 < listMax ((clusterMetrics fc).map ClusterMetrics.frequency) →
      0 < listMax ((clusterMetrics fc).map ClusterMetrics.recency) →
      0 < listMax ((clusterMetrics fc).map ClusterMetrics.customer_value_score) →
      ∀ p ∈ segmentProfile fc,
        p.monetary_norm.inUnit ∧ p.frequency_norm.inUnit ∧
        p.recency_norm.inUnit ∧ p.value_norm.inUnit := by
  intro fc hpos hM hF hR hV p hp
  unfold segmentProfile at hp
  rcases List.mem_map.mp hp with ⟨row, hrow, rfl⟩
  rcases hpos row hrow with ⟨h1, h2, h3, h4⟩
  have hm_le := mem_le_listMax _ row.monetary
    (List.mem_map_of_mem ClusterMetrics.monetary hrow)
  have hf_le := mem_le_listMax _ row.frequency
    (List.mem_map_of_mem ClusterMetrics.frequency hrow)
  have hr_le := mem_le_listMax _ row.recency
    (List.mem_map_of_mem ClusterMetrics.recency hrow)
  have hv_le := mem_le_listMax _ row.customer_value_score
    (List.mem_map_of_mem ClusterMetrics.customer_value_score hrow)
  refine ⟨?_, ?_, ?_, ?_⟩
  · simp only [PFloat.div, if_neg (ne_of_gt hM), PFloat.inUnit]
    exact ⟨div_nonneg h1 (le_of_lt hM), (div_le_one hM).mpr hm_le⟩
  · simp only [PFloat.div, if_neg (ne_of_gt hF), PFloat.inUnit]
    exact ⟨div_nonneg h2 (le_of_lt hF), (div_le_one hF).mpr hf_le⟩
  · simp only [PFloat.div, if_neg (ne_of_gt hR), PFloat.sub, PFloat.inUnit]
    have hnn : 0 ≤ row.recency / listMax ((clusterMetrics fc).map ClusterMetrics.recency) :=
      div_nonneg h3 (le_of_lt hR)
    have hle : row.recency / listMax ((clusterMetrics fc).map ClusterMetrics.recency) ≤ 1 :=
      (div_le_one hR).mpr hr_le
    constructor <;> linarith
  · simp only [PFloat.div, if_neg (ne_of_gt hV), PFloat.inUnit]
    exact ⟨div_nonneg h4 (le_of_lt hV), (div_le_one hV).mpr hv_le⟩

/-- Witness for C8 at a concrete two-segment view with positive means. -/
theorem claim_c8_witness :
    PFloat.inUnit (PFloat.val (1 / 2)) ∧ PFloat.inUnit (PFloat.val (1 / 2)) ∧
    PFloat.inUnit (PFloat.val (1 / 2)) ∧ PFloat.inUnit (PFloat.val (1 / 2)) := by
  have h1 : clusterKeys [ custA, custB ] = [ 0, 1 ] := by decide
  have h2 : clusterGroup [ custA, custB ] 0 = [ custA ] := by decide
  have h3 : clusterGroup [ custA, custB ] 1 = [ custB ] := by decide
  have hcm : clusterMetrics [ custA, custB ] =
      [ { cluster := 0, monetary := 1, frequency := 1, recency := 1,
          customer_value_score := 1 },
        { cluster := 1, monetary := 2, frequency := 2, recency := 2,
          customer_value_score := 2 } ] := by
    unfold clusterMetrics
    rw [h1]
    simp only [List.map_cons, List.map_nil, h2, h3]
    norm_num [qmean, custA, custB]
  have hsp : segmentProfile [ custA, custB ] =
      [ { cluster := 0, monetary_norm := PFloat.val (1 / 2),
          frequency_norm := PFloat.val (1 / 2),
          recency_norm := PFloat.val (1 / 2),
          value_norm := PFloat.val (1 / 2) },
        { cluster := 1, monetary_norm := PFloat.val 1,
          frequency_norm := PFloat.val 1, recency_norm := PFloat.val 0,
          value_norm := PFloat.val 1 } ] := by
    unfold segmentProfile
    rw [hcm]
    norm_num [listMax, PFloat.div, PFloat.sub]
  have hpos : ∀ row ∈ clusterMetrics [ custA, custB ],
      0 ≤ row.monetary ∧ 0 ≤ row.frequency ∧ 0 ≤ row.recency ∧
      0 ≤ row.customer_value_score := by
    rw [hcm]
    intro row hrow
    rcases List.mem_cons.mp hrow with rfl | hrow2
    · norm_num
    · rcases List.mem_cons.mp hrow2 with rfl | hrow3
      · norm_num
      · simp at hrow3
  have hmax : (0 : ℚ) < listMax ((clusterMetrics [ custA, custB ]).map
      ClusterMetrics.monetary) := by
    rw [hcm]
    norm_num [listMax]
  have hmaxf : (0 : ℚ) < listMax ((clusterMetrics [ custA, custB ]).map
      ClusterMetrics.frequency) := by
    rw [hcm]
    norm_num [listMax]
  have hmaxr : (0 : ℚ) < listMax ((clusterMetrics [ custA, custB ]).map
      ClusterMetrics.recency) := by
    rw [hcm]
    norm_num [listMax]
  have hmaxv : (0 : ℚ) < listMax ((clusterMetrics [ custA, custB ]).map
      ClusterMetrics.customer_value_score) := by
    rw [hcm]
    norm_num [listMax]
  have hp : (⟨0, PFloat.val (1 / 2), PFloat.val (1 / 2), PFloat.val (1 / 2),
      PFloat.val (1 / 2)⟩ : ProfilePoint) ∈ segmentProfile [ custA, custB ] := by
    rw [hsp]
    exact List.mem_cons_self _ _
  exact claim_c8_theorem [ custA, custB ] hpos hmax hmaxf hmaxr hmaxv _ hp

end Dash
